import Mathlib

/-!
A verification development for the `adk-crisis-response-service` repository.

The Python sources are shallowly embedded as executable Lean definitions:

* `src/crisis_response/agent.py` — namespace `CrisisResponse`: the module-level
  configuration (`MODEL_NAME`, `RAG_CORPUS`), the conditional RAG tool
  (`crisis_rag_retrieval`), the search delegate agent (`search_agent`), the
  capability list (`agent_tools`) and the root agent (`root_agent`).
* `src/crisis_response/shared_libraries/prepare_crisis_corpus.py` — namespace
  `Corpus`: module initialisation (fatal configuration checks),
  `create_or_get_corpus`, `upload_pdf_to_corpus`, `download_pdf_from_url` and
  the per-document section of `main`.
* `src/deployment/deploy.py` — namespace `Deploy`: `_get_config_value`,
  the `.env` file operations, `create_agent` / `delete_agent` / `update_agent`
  / `list_all_agents` and the dispatching `main`.

External services (the Vertex AI control plane, the RAG service, HTTP
downloads) are modelled as oracles: a record of the outcome each call would
have, with the calls the scripts issue captured in explicit traces. Process
environments are records of `Option String` values (`none` = unset), and
Python truthiness of such a value (`if value:`) is `pyTruthy`.
-/

/-- Python truthiness of an optional string as returned by `os.getenv`:
`None` and the empty string are falsy, any other string is truthy. -/
def pyTruthy : Option String → Bool
  | none => false
  | some s => !s.isEmpty

namespace CrisisResponse

/-- The process environment read by `src/crisis_response/agent.py`
(lines 21-22): `MODEL_NAME` and `RAG_CORPUS`, each possibly unset. -/
structure Env where
  MODEL_NAME : Option String
  RAG_CORPUS : Option String
  deriving Repr, DecidableEq

/-- `agent.py` line 21: `os.getenv("MODEL_NAME", "gemini-2.0-flash")` —
the default applies only when the variable is unset. -/
def MODEL_NAME (env : Env) : String :=
  env.MODEL_NAME.getD "gemini-2.0-flash"

/-- The `VertexAiRagRetrieval` tool as constructed in `agent.py` lines 30-45:
a name, a description and the corpus resource it is bound to. -/
structure VertexAiRagRetrieval where
  name : String
  description : String
  rag_corpus : String
  deriving Repr, DecidableEq

/-- The description string of the retrieval tool (`agent.py` lines 32-35). -/
def rag_tool_description : String :=
  "Use this tool to retrieve information from the curated crisis knowledge base (official documents, guidelines, etc.). Use for general procedures, safety tips, and established information."

/-- `agent.py` lines 27-45: `crisis_rag_retrieval` is the retrieval tool when
`RAG_CORPUS` is truthy and `None` otherwise. -/
def crisis_rag_retrieval (env : Env) : Option VertexAiRagRetrieval :=
  if pyTruthy env.RAG_CORPUS then
    some { name := "retrieve_crisis_information",
           description := rag_tool_description,
           rag_corpus := env.RAG_CORPUS.getD "" }
  else
    none

/-- The warning logged at `agent.py` lines 47-50 when `RAG_CORPUS` is absent. -/
def rag_corpus_warning : String :=
  "RAG_CORPUS environment variable not set. RAG tool will not be available. The agent will rely solely on Google Search and its internal knowledge."

/-- A primitive framework tool: `google_search` from `google.adk.tools`. -/
inductive BaseTool where
  | google_search
  deriving Repr, DecidableEq

/-- An `Agent` whose tools are primitive framework tools — the shape of
`search_agent` (`agent.py` lines 56-78). -/
structure Agent where
  model : String
  name : String
  instruction : String
  tools : List BaseTool
  deriving Repr, DecidableEq

/-- The instruction text of `search_agent` (`agent.py` lines 59-76). -/
def search_agent_instruction : String :=
  "You are an advanced AI, operating as an elite Google Search specialist. Your sole mission is to provide precise, real-time information on crisis situations directly and immediately in response to user requests.\n\nYour Internal Mandate (Execute this process internally with maximum speed and precision; DO NOT describe these steps in your response to the user):\n\nInstantaneous Request Analysis: Upon receiving a user query, immediately dissect it to identify the core components: specific crisis type (e.g., earthquake, wildfire, industrial accident), precise geographic location, and the exact nature of information required (e.g., current status, official advisories, affected zones, casualty reports, humanitarian efforts).\n\nOptimized Search Simulation & Source Prioritization: Internally simulate an optimal Google Search strategy. This includes deploying advanced search operators and real-time filters. Critically prioritize data from the most authoritative and timely sources, such as official government emergency agencies (e.g., FEMA, CalOES, WHO), established international news organizations with strong verification records, and credible non-governmental organizations (NGOs) directly involved.\n\nRapid Verification & Cross-Referencing: Swiftly evaluate the gathered information for its timeliness, accuracy, and relevance. Internally cross-reference critical details across multiple high-credibility sources to ensure reliability before relaying.\n\nDirect Information Synthesis: Consolidate the verified, most crucial information into a concise, clear, and directly actionable update tailored to the user's query.\n\nYour Output to the User:\nYour response must be immediate and consist only of the synthesized real-time information relevant to the crisis. Do not explain your search process, your source evaluation, or your synthesis steps. Begin your response directly with the information. \nProvide answer to the question asked instead of providing unnecessary details."

/-- `agent.py` lines 56-78: the Google Search delegate agent. -/
def search_agent (env : Env) : Agent :=
  { model := MODEL_NAME env,
    name := "GoogleSearch",
    instruction := search_agent_instruction,
    tools := [BaseTool.google_search] }

/-- What an `agent_tool.AgentTool` wraps: either the retrieval tool instance
(`agent.py` line 84 passes `crisis_rag_retrieval` as `agent=`) or the search
delegate agent (line 87). -/
inductive AgentToolAgent where
  | ofRetrieval (t : VertexAiRagRetrieval)
  | ofAgent (a : Agent)
  deriving Repr, DecidableEq

/-- An `agent_tool.AgentTool` instance. -/
structure AgentTool where
  agent : AgentToolAgent
  deriving Repr, DecidableEq

/-- The name an `AgentTool` exposes: the `name` of what it wraps. -/
def AgentTool.name : AgentTool → String
  | { agent := AgentToolAgent.ofRetrieval t } => t.name
  | { agent := AgentToolAgent.ofAgent a } => a.name

/-- `agent.py` lines 81-88: start from the empty list, append an `AgentTool`
wrapping `crisis_rag_retrieval` when that is truthy, then always append an
`AgentTool` wrapping `search_agent`. -/
def agent_tools (env : Env) : List AgentTool :=
  (match crisis_rag_retrieval env with
   | some t => [{ agent := AgentToolAgent.ofRetrieval t }]
   | none => []) ++
  [{ agent := AgentToolAgent.ofAgent (search_agent env) }]

/-- The instruction text `CRISIS_RESPONSE_SYSTEM_INSTRUCTION` from
`src/crisis_response/prompts.py`. The natural-language policy content is kept
verbatim apart from whitespace normalisation; no claim depends on its text. -/
def CRISIS_RESPONSE_SYSTEM_INSTRUCTION : String :=
  "You are a helpful and empathetic Crisis Response Information Assistant. Your primary goal is to provide clear, accurate, and actionable information to help people during emergencies.\n\nFollow these guidelines:\n1.  **Prioritize Verified Information:** Prefer information from the uploaded knowledge base (retrieved via the RAG tool `VertexAiRagRetrieval`) as it contains curated official documents. Cite the source document when using this information.\n2.  **Use Web Search for Current/Specific Info:** If the user's query concerns very recent events, rapidly evolving situations, specific local real-time information not found in the knowledge base, or if the user explicitly asks for current updates, use the `GoogleSearch` tool. When searching, prioritize results from official government (e.g., fema.gov, cdc.gov, noaa.gov, local emergency services like ready.gov or specific state/county sites) and recognized emergency response organizations (e.g., who.int, redcross.org).\n3.  **Location Awareness:** If the user specifies a location (e.g., city, county, state) or asks for information \"near me,\" use that location information in your RAG queries (if applicable to the documents) and especially in your `GoogleSearch` queries to provide relevant local information (e.g., 'emergency shelters near Dublin, California', 'current flood status [river name] [city]'). If no location is given for a location-sensitive query, ask for clarification (e.g., \"For which city or region are you asking about evacuation zones?\").\n4.  **Be Clear, Concise, and Actionable:** Provide information in an easy-to-understand manner. Use bullet points for steps, lists, or key recommendations.\n5.  **Empathy and Safety:** Respond with empathy. If the situation sounds life-threatening or implies immediate danger, advise the user to contact local emergency services (e.g., 911 in the US, or the relevant local emergency number) immediately.\n6.  **Disclaimer:** Remind users that you are an AI assistant and your information is for guidance and not a substitute for official emergency services or professional advice.\n7.  **\"How to Help\" Queries:** If asked how to help people affected by a crisis, you can search for reputable organizations involved in relief efforts for that specific crisis using `GoogleSearch` (e.g., \"donate to victims of [crisis name] site:redcross.org OR site:charitynavigator.org\") or provide general links to well-known international organizations like the Red Cross, UNICEF, or Doctors Without Borders if the query is general.\n8.  **Tool Usage - VERY IMPORTANT:**\n    * To search the curated knowledge base for general information, procedures, or guidelines, use the RAG tool. The RAG tool is implicitly called when you need to access the pre-loaded corpus. Formulate your thoughts as if you are querying this knowledge base.\n    * To get the absolute latest news, specific local real-time data, information on active/unfolding events, or details not likely covered by static documents, use the `GoogleSearch` tool. You MUST specify `GoogleSearch(queries=[\"your targeted search query\"])`.\n    * Choose the most appropriate tool (RAG context or `GoogleSearch`) based on the nature of the query. If in doubt for real-time or highly specific local data, `GoogleSearch` is often better."

/-- The root agent as constructed at `agent.py` lines 100-106. -/
structure RootAgent where
  model : String
  instruction : String
  tools : List AgentTool
  name : String
  description : String
  deriving Repr, DecidableEq

/-- `agent.py` lines 100-106: the root agent configuration handed to the ADK
runner. -/
def root_agent (env : Env) : RootAgent :=
  { model := MODEL_NAME env,
    instruction := CRISIS_RESPONSE_SYSTEM_INSTRUCTION,
    tools := agent_tools env,
    name := "crisis_response_agent",
    description := "Provides information and assistance during crisis situations." }

/-- A logger level of the `logging` records the module emits. -/
inductive LogLevel where
  | info
  | warning
  deriving Repr, DecidableEq

/-- One emitted log record. -/
structure LogRecord where
  level : LogLevel
  msg : String
  deriving Repr, DecidableEq

/-- The full import-time behaviour of `agent.py` as a TOTAL function of the
process environment: the module body contains no `raise` and no fallible call,
so loading it never fails, whatever the environment.  The log list keeps the
records whose text is a plain string of the source (lines 29 or 47-50, 91,
108); the `Tools configured:` record of lines 93-95, which formats the
assembled list, is summarised by the `agent_tools` field itself. -/
structure AgentModule where
  logs : List LogRecord
  crisis_rag_retrieval : Option VertexAiRagRetrieval
  search_agent : Agent
  agent_tools : List AgentTool
  root_agent : RootAgent
  deriving Repr, DecidableEq

/-- Loading `agent.py` under a given environment. -/
def load_agent_module (env : Env) : AgentModule :=
  { logs :=
      (if pyTruthy env.RAG_CORPUS then
         [{ level := LogLevel.info,
            msg := "Initializing RAG tool with corpus: " ++ env.RAG_CORPUS.getD "" }]
       else
         [{ level := LogLevel.warning, msg := rag_corpus_warning }]) ++
      [{ level := LogLevel.info,
         msg := "Initializing Crisis Response Agent with model: " ++ MODEL_NAME env },
       { level := LogLevel.info,
         msg := "Crisis Response Agent initialized successfully." }],
    crisis_rag_retrieval := crisis_rag_retrieval env,
    search_agent := search_agent env,
    agent_tools := agent_tools env,
    root_agent := root_agent env }

end CrisisResponse

namespace Corpus

/-- The process environment read by
`src/crisis_response/shared_libraries/prepare_crisis_corpus.py`
(lines 30-45). -/
structure CorpusEnv where
  GOOGLE_CLOUD_PROJECT : Option String
  GOOGLE_CLOUD_LOCATION : Option String
  RAG_CORPUS_DISPLAY_NAME : Option String
  RAG_CORPUS_DESCRIPTION : Option String
  deriving Repr, DecidableEq

/-- The module-level configuration values computed once the fatal checks of
lines 30-39 have passed. -/
structure CorpusConfig where
  PROJECT_ID : String
  LOCATION : String
  CORPUS_DISPLAY_NAME : String
  CORPUS_DESCRIPTION : String
  deriving Repr, DecidableEq

/-- `prepare_crisis_corpus.py` lines 30-45, the module body up to the
configuration constants: `ValueError` is raised when `GOOGLE_CLOUD_PROJECT`
or `GOOGLE_CLOUD_LOCATION` is falsy, in that order, BEFORE any network-facing
function (`initialize_vertex_ai`, `main`) can run — those are only reachable
from a loaded module, which requires this initialiser to return `ok`. -/
def corpus_module_init (env : CorpusEnv) : Except String CorpusConfig :=
  if !pyTruthy env.GOOGLE_CLOUD_PROJECT then
    Except.error "GOOGLE_CLOUD_PROJECT environment variable not set. Please set it in your .env file."
  else if !pyTruthy env.GOOGLE_CLOUD_LOCATION then
    Except.error "GOOGLE_CLOUD_LOCATION environment variable not set. Please set it in your .env file."
  else
    Except.ok
      { PROJECT_ID := env.GOOGLE_CLOUD_PROJECT.getD "",
        LOCATION := env.GOOGLE_CLOUD_LOCATION.getD "",
        CORPUS_DISPLAY_NAME := env.RAG_CORPUS_DISPLAY_NAME.getD "Crisis_Response_Corpus",
        CORPUS_DESCRIPTION := env.RAG_CORPUS_DESCRIPTION.getD "Corpus for Crisis Response Information Agent" }

/-- A RAG corpus as the `rag` SDK reports it: resource name and display name. -/
structure RagCorpus where
  name : String
  display_name : String
  deriving Repr, DecidableEq

/-- A file of a RAG corpus as the `rag` SDK reports it. -/
structure RagFile where
  name : String
  display_name : String
  deriving Repr, DecidableEq

/-- A call the corpus-preparation script issues against the RAG service. -/
inductive RagCall where
  | list_corpora
  | create_corpus (display_name description : String)
  | list_files (corpus_name : String)
  | upload_file (corpus_name path display_name description : String)
  deriving Repr, DecidableEq

/-- `create_or_get_corpus` (lines 75-94): list the corpora, scan them for the
first one whose display name matches `CORPUS_DISPLAY_NAME` (the `for`/`break`
loop), and only when none matches call `rag.create_corpus`.  `existing_corpora`
is what `rag.list_corpora()` returned; `created` is the corpus
`rag.create_corpus` would make.  The second component is the trace of RAG
calls issued. -/
def create_or_get_corpus (corpus_display_name corpus_description : String)
    (existing_corpora : List RagCorpus) (created : RagCorpus) :
    RagCorpus × List RagCall :=
  match existing_corpora.find? (fun c => c.display_name == corpus_display_name) with
  | some corpus => (corpus, [RagCall.list_corpora])
  | none =>
      (created,
       [RagCall.list_corpora,
        RagCall.create_corpus corpus_display_name corpus_description])

/-- One event of the document-processing loop of `main` (lines 186-220),
including what `download_pdf_from_url` (lines 97-112) does inside it. -/
inductive DocEvent where
  | download_attempt (url : String)
  | download_error (url : String)
  | upload_attempt (filename : String)
  | skip_download_failure (filename : String)
  | skip_no_url (filename : String)
  deriving Repr, DecidableEq

/-- `download_pdf_from_url` (lines 97-112): one `requests.get` attempt; on a
`RequestException` the error is printed and `False` returned — there is no
retry.  `dl_ok` is whether the single attempt would succeed.  Returns the
Python function's return value and the events of the attempt. -/
def download_pdf_from_url (dl_ok : Bool) (url : String) : Bool × List DocEvent :=
  if dl_ok then (true, [DocEvent.download_attempt url])
  else (false, [DocEvent.download_attempt url, DocEvent.download_error url])

/-- `upload_pdf_to_corpus` (lines 115-141): list the files of the corpus, and
when one has the wanted display name return it WITHOUT calling
`rag.upload_file`; otherwise issue the upload.  `existing_files` is what
`rag.list_files` returned; `upload_result` is the file `rag.upload_file`
would return (`none` models the exception the handler of lines 139-141 turns
into a `None` return).  The second component is the trace of RAG calls. -/
def upload_pdf_to_corpus (corpus_name pdf_path display_name description : String)
    (existing_files : List RagFile) (upload_result : Option RagFile) :
    Option RagFile × List RagCall :=
  match existing_files.find? (fun f => f.display_name == display_name) with
  | some existing_file => (some existing_file, [RagCall.list_files corpus_name])
  | none =>
      (upload_result,
       [RagCall.list_files corpus_name,
        RagCall.upload_file corpus_name pdf_path display_name description])

/-- One entry of the `EXAMPLE_DOCUMENTS` list (lines 48-60). -/
structure DocInfo where
  url : Option String
  filename : String
  description : String
  deriving Repr, DecidableEq

/-- The `EXAMPLE_DOCUMENTS` list of lines 48-60. -/
def EXAMPLE_DOCUMENTS : List DocInfo :=
  [{ url := some "https://www.ready.gov/sites/default/files/2024-03/ready.gov_earthquake_hazard-info-sheet.pdf",
     filename := "earthquake_info_sheet.pdf",
     description := "FEMA Earthquake Information Sheet" },
   { url := some "https://www.who.int/docs/default-source/coronaviruse/coping-with-stress.pdf?sfvrsn=9845bc3a_2",
     filename := "who_coping_with_stress.pdf",
     description := "WHO Guide on Coping with Stress During Outbreaks" }]

/-- The body of the `for doc_info in EXAMPLE_DOCUMENTS` loop of `main`
(lines 186-220) for one document.  `dl` tells, per URL, whether the single
download attempt would succeed (a successful download writes the file, so the
`pdf_path.exists()` test of line 206 passes).  An `upload_attempt` event
stands for the call to `upload_pdf_to_corpus`. -/
def process_document (dl : String → Bool) (doc : DocInfo) : List DocEvent :=
  if pyTruthy doc.url then
    let url := doc.url.getD ""
    let r := download_pdf_from_url (dl url) url
    if r.1 then r.2 ++ [DocEvent.upload_attempt doc.filename]
    else r.2 ++ [DocEvent.skip_download_failure doc.filename]
  else
    [DocEvent.skip_no_url doc.filename]

/-- The whole document loop of `main` (lines 186-220): every document of the
input list is processed in order; no outcome for one document aborts the
loop. -/
def main_document_loop (dl : String → Bool) (docs : List DocInfo) : List DocEvent :=
  docs.flatMap (process_document dl)

end Corpus

namespace Deploy

/-- The command-line flags of `src/deployment/deploy.py` (lines 36-62), with
the string defaults of `display_name` and `description` filled in by `absl`
when the flag is not passed. -/
structure Flags where
  project_id : Option String
  location : Option String
  staging_bucket_name : Option String
  agent_engine_id : Option String
  display_name : String := "Crisis Response Agent"
  description : String := "Agent providing crisis information using RAG and Search."
  list : Bool := false
  create : Bool := false
  delete : Bool := false
  update : Bool := false
  deriving Repr, DecidableEq

/-- The process environment `deploy.py` reads after `load_dotenv(override=True)`
(line 65): the `.env` file's values are reflected here. -/
structure DeployEnv where
  GOOGLE_CLOUD_PROJECT : Option String
  GOOGLE_CLOUD_LOCATION : Option String
  STAGING_BUCKET_NAME : Option String
  AGENT_ENGINE_ID : Option String
  deriving Repr, DecidableEq

/-- The `.env` file as a key-value list in file order. -/
abbrev EnvFile := List (String × String)

/-- `dotenv.set_key`: replace the value of the first line holding the key, or
append the pair when the key is absent. -/
def set_key : EnvFile → String → String → EnvFile
  | [], key, value => [(key, value)]
  | kv :: rest, key, value =>
      if kv.1 = key then (key, value) :: rest
      else kv :: set_key rest key value

/-- `dotenv.unset_key`: remove the key's lines. -/
def unset_key : EnvFile → String → EnvFile
  | [], _ => []
  | kv :: rest, key =>
      if kv.1 = key then unset_key rest key
      else kv :: unset_key rest key

/-- Look a key up in the `.env` file (first line wins). -/
def env_lookup : EnvFile → String → Option String
  | [], _ => none
  | kv :: rest, key => if kv.1 = key then some kv.2 else env_lookup rest key

/-- `_update_env_file` (`deploy.py` lines 81-96): `set_key` for a value,
`unset_key` for `None` (the file-creation and exception-logging branches do
not change the key-value content on the success path modelled here). -/
def _update_env_file (f : EnvFile) (key : String) (value : Option String) : EnvFile :=
  match value with
  | some v => set_key f key v
  | none => unset_key f key

/-- The resolution `value = flag_value if flag_value is not None else
os.getenv(env_var_name)` inside `_get_config_value` (line 74). -/
def resolved (flag_value env_value : Option String) : Option String :=
  if flag_value.isSome then flag_value else env_value

/-- `_get_config_value` (`deploy.py` lines 72-78): the resolved value when it
is truthy, otherwise the `ValueError` with the given message. -/
def _get_config_value (flag_value env_value : Option String) (error_message : String) :
    Except String String :=
  if pyTruthy (resolved flag_value env_value) then
    Except.ok ((resolved flag_value env_value).getD "")
  else
    Except.error error_message

/-- A call against the Vertex AI Agent Engine control plane.  `vertexai.init`
(line 258) is client-side configuration, not a control-plane request, and is
not recorded. -/
inductive CpCall where
  | create
  | get (id : String)
  | delete (id : String)
  | update (id : String)
  | list
  deriving Repr, DecidableEq

/-- An oracle for the outcomes the control-plane calls would have:
`create_result` / `update_result` are the resulting resource name on success
and `none` on failure; `get_ok`, `delete_ok`, `list_ok` tell whether the
corresponding call succeeds. -/
structure ControlPlane where
  create_result : Option String
  get_ok : Bool
  delete_ok : Bool
  update_result : Option String
  list_ok : Bool
  deriving Repr, DecidableEq

/-- The observable outcome of one run of the script: the process exit code
(`0` = fell through normally, `1` = `exit(1)`), the control-plane calls
issued in order, and the resulting `.env` file content. -/
structure RunResult where
  exit_code : Nat
  calls : List CpCall
  env_file : EnvFile
  deriving Repr, DecidableEq

/-- `create_agent` (`deploy.py` lines 120-143): call `agent_engines.create`;
on success persist `AGENT_ENGINE_ID` and `AGENT_DISPLAY_NAME` into the `.env`
file; on failure `exit(1)`. -/
def create_agent (cp : ControlPlane) (flags : Flags) (f : EnvFile) : RunResult :=
  match cp.create_result with
  | some resource_name =>
      { exit_code := 0,
        calls := [CpCall.create],
        env_file :=
          _update_env_file
            (_update_env_file f "AGENT_ENGINE_ID" (some resource_name))
            "AGENT_DISPLAY_NAME" (some flags.display_name) }
  | none => { exit_code := 1, calls := [CpCall.create], env_file := f }

/-- `delete_agent` (`deploy.py` lines 146-164): an empty resource id is
`exit(1)` before any call; then `agent_engines.get` and `.delete(force=True)`;
on success the `.env` keys are cleared ONLY when the deleted id equals the
environment's `AGENT_ENGINE_ID` (line 159); any exception is `exit(1)`. -/
def delete_agent (cp : ControlPlane) (env : DeployEnv) (f : EnvFile)
    (agent_engine_resource_id : String) : RunResult :=
  if agent_engine_resource_id.isEmpty then
    { exit_code := 1, calls := [], env_file := f }
  else if !cp.get_ok then
    { exit_code := 1, calls := [CpCall.get agent_engine_resource_id], env_file := f }
  else if !cp.delete_ok then
    { exit_code := 1,
      calls := [CpCall.get agent_engine_resource_id, CpCall.delete agent_engine_resource_id],
      env_file := f }
  else
    { exit_code := 0,
      calls := [CpCall.get agent_engine_resource_id, CpCall.delete agent_engine_resource_id],
      env_file :=
        if env.AGENT_ENGINE_ID = some agent_engine_resource_id then
          _update_env_file (_update_env_file f "AGENT_ENGINE_ID" none)
            "AGENT_DISPLAY_NAME" none
        else f }

/-- `list_all_agents` (`deploy.py` lines 167-192): one `agent_engines.list`
call; `exit(1)` on failure. -/
def list_all_agents (cp : ControlPlane) (f : EnvFile) : RunResult :=
  { exit_code := if cp.list_ok then 0 else 1,
    calls := [CpCall.list],
    env_file := f }

/-- `update_agent` (`deploy.py` lines 194-226): an empty resource id is
`exit(1)` before any call; then `agent_engines.update`; on success the `.env`
keys are persisted ONLY when the updated id equals the environment's
`AGENT_ENGINE_ID` or that variable is falsy (line 220); failure is `exit(1)`. -/
def update_agent (cp : ControlPlane) (env : DeployEnv) (flags : Flags) (f : EnvFile)
    (agent_engine_resource_id : String) : RunResult :=
  if agent_engine_resource_id.isEmpty then
    { exit_code := 1, calls := [], env_file := f }
  else
    match cp.update_result with
    | some resource_name =>
        { exit_code := 0,
          calls := [CpCall.update agent_engine_resource_id],
          env_file :=
            if env.AGENT_ENGINE_ID = some agent_engine_resource_id ∨
                pyTruthy env.AGENT_ENGINE_ID = false then
              _update_env_file
                (_update_env_file f "AGENT_ENGINE_ID" (some resource_name))
                "AGENT_DISPLAY_NAME" (some flags.display_name)
            else f }
    | none =>
        { exit_code := 1,
          calls := [CpCall.update agent_engine_resource_id],
          env_file := f }

/-- The error message of the missing-project check (`deploy.py` line 237). -/
def project_error : String :=
  "Error: GOOGLE_CLOUD_PROJECT must be set via flag --project_id or environment variable."

/-- The error message of the missing-location check (line 242). -/
def location_error : String :=
  "Error: GOOGLE_CLOUD_LOCATION must be set via flag --location or environment variable."

/-- The error message of the missing-staging-bucket check (line 247). -/
def staging_error : String :=
  "Error: Staging bucket name must be set via flag --staging_bucket_name or STAGING_BUCKET_NAME in .env."

/-- `main` (`deploy.py` lines 229-284): resolve project, location and staging
bucket (a `ValueError` from any of them is caught and turned into `exit(1)`
before `vertexai.init` and before any control-plane call); resolve the agent
id from the flag or the environment (Python truthiness on the flag, line 264);
dispatch on the mutually exclusive action flags in source order, with the
delete and update actions guarded by the id check of lines 271-273 / 276-278;
no action flag is an informational no-op. -/
def main (flags : Flags) (env : DeployEnv) (cp : ControlPlane) (f : EnvFile) : RunResult :=
  match _get_config_value flags.project_id env.GOOGLE_CLOUD_PROJECT project_error with
  | Except.error _ => { exit_code := 1, calls := [], env_file := f }
  | Except.ok _ =>
    match _get_config_value flags.location env.GOOGLE_CLOUD_LOCATION location_error with
    | Except.error _ => { exit_code := 1, calls := [], env_file := f }
    | Except.ok _ =>
      match _get_config_value flags.staging_bucket_name env.STAGING_BUCKET_NAME staging_error with
      | Except.error _ => { exit_code := 1, calls := [], env_file := f }
      | Except.ok _ =>
        let agent_id_from_flag_or_env : Option String :=
          if pyTruthy flags.agent_engine_id then flags.agent_engine_id
          else env.AGENT_ENGINE_ID
        if flags.list then list_all_agents cp f
        else if flags.create then create_agent cp flags f
        else if flags.delete then
          if !pyTruthy agent_id_from_flag_or_env then
            { exit_code := 1, calls := [], env_file := f }
          else delete_agent cp env f (agent_id_from_flag_or_env.getD "")
        else if flags.update then
          if !pyTruthy agent_id_from_flag_or_env then
            { exit_code := 1, calls := [], env_file := f }
          else update_agent cp env flags f (agent_id_from_flag_or_env.getD "")
        else { exit_code := 0, calls := [], env_file := f }

end Deploy

/-! ### Concrete inputs used by counterexamples and witnesses -/

namespace CrisisResponse

/-- An environment whose `RAG_CORPUS` is SET, but to the empty string. -/
def env_rag_empty : Env := { MODEL_NAME := none, RAG_CORPUS := some "" }

/-- An environment with `RAG_CORPUS` unset. -/
def env_no_rag : Env := { MODEL_NAME := none, RAG_CORPUS := none }

end CrisisResponse

namespace Corpus

/-- A download oracle under which every download attempt fails. -/
def c8_dl : String → Bool := fun _ => false

/-- The first entry of `EXAMPLE_DOCUMENTS`. -/
def c8_doc1 : DocInfo :=
  { url := some "https://www.ready.gov/sites/default/files/2024-03/ready.gov_earthquake_hazard-info-sheet.pdf",
    filename := "earthquake_info_sheet.pdf",
    description := "FEMA Earthquake Information Sheet" }

/-- The remaining entries of `EXAMPLE_DOCUMENTS`. -/
def c8_rest : List DocInfo :=
  [{ url := some "https://www.who.int/docs/default-source/coronaviruse/coping-with-stress.pdf?sfvrsn=9845bc3a_2",
     filename := "who_coping_with_stress.pdf",
     description := "WHO Guide on Coping with Stress During Outbreaks" }]

end Corpus

namespace Deploy

/-- A `--delete` invocation whose `--agent_engine_id` flag names a DIFFERENT
engine than the `AGENT_ENGINE_ID` of the environment / `.env` file. -/
def c4_flags : Flags :=
  { project_id := some "p", location := some "l", staging_bucket_name := some "b",
    agent_engine_id := some "projects/p/locations/l/reasoningEngines/B",
    delete := true }

/-- The environment for the `c4_flags` run: `AGENT_ENGINE_ID` names engine A. -/
def c4_env : DeployEnv :=
  { GOOGLE_CLOUD_PROJECT := some "p", GOOGLE_CLOUD_LOCATION := some "l",
    STAGING_BUCKET_NAME := some "b",
    AGENT_ENGINE_ID := some "projects/p/locations/l/reasoningEngines/A" }

/-- A control plane on which every call succeeds (creates/updates return a
fresh resource name). -/
def c4_cp : ControlPlane :=
  { create_result := some "projects/p/locations/l/reasoningEngines/NEW",
    get_ok := true, delete_ok := true,
    update_result := some "projects/p/locations/l/reasoningEngines/NEW",
    list_ok := true }

/-- The `.env` file before the `c4_flags` run. -/
def c4_file : EnvFile :=
  [("AGENT_ENGINE_ID", "projects/p/locations/l/reasoningEngines/A"),
   ("AGENT_DISPLAY_NAME", "Crisis Response Agent")]

/-- A `--delete` invocation with no `--agent_engine_id` flag. -/
def c5_flags : Flags :=
  { project_id := some "p", location := some "l", staging_bucket_name := some "b",
    agent_engine_id := none, delete := true }

/-- The environment for the `c5_flags` run: no `AGENT_ENGINE_ID` anywhere. -/
def c5_env : DeployEnv :=
  { GOOGLE_CLOUD_PROJECT := some "p", GOOGLE_CLOUD_LOCATION := some "l",
    STAGING_BUCKET_NAME := some "b", AGENT_ENGINE_ID := none }

end Deploy


/-! ## Theorems -/

namespace CrisisResponse

/-- C1 (amended): capability assembly yields exactly one capability — the
search delegate — when `RAG_CORPUS` is unset OR set to the empty string
(Python truthiness), and exactly two capabilities — the retrieval tool named
`retrieve_crisis_information` first, the search delegate second — when
`RAG_CORPUS` is set to a non-empty value. -/
theorem C1_capability_assembly (env : Env) :
    (agent_tools env).length = (if pyTruthy env.RAG_CORPUS then 2 else 1) ∧
    agent_tools env =
      (if pyTruthy env.RAG_CORPUS then
        [{ agent := AgentToolAgent.ofRetrieval
             { name := "retrieve_crisis_information",
               description := rag_tool_description,
               rag_corpus := env.RAG_CORPUS.getD "" } },
         { agent := AgentToolAgent.ofAgent (search_agent env) }]
      else
        [{ agent := AgentToolAgent.ofAgent (search_agent env) }]) := by
  by_cases h : pyTruthy env.RAG_CORPUS <;>
    simp [agent_tools, crisis_rag_retrieval, h]

/-- C1, the claim as frozen, is false: an environment whose `RAG_CORPUS` IS
set — to the empty string — produces a tool list of length 1, not 2, because
`agent.py` line 28 tests Python truthiness, not presence. -/
theorem C1_counterexample_empty_corpus :
    env_rag_empty.RAG_CORPUS.isSome = true ∧
    (agent_tools env_rag_empty).length = 1 := by
  constructor
  · rfl
  · rfl

/-- C2: in every environment configuration the capability names of the
assembled tool list are pairwise distinct; the retrieval tool, when present,
is named `retrieve_crisis_information` and the search delegate is named
`GoogleSearch`. -/
theorem C2_capability_names_unique (env : Env) :
    ((agent_tools env).map AgentTool.name).Nodup ∧
    (agent_tools env).map AgentTool.name =
      (if pyTruthy env.RAG_CORPUS then
        ["retrieve_crisis_information", "GoogleSearch"]
      else
        ["GoogleSearch"]) := by
  by_cases h : pyTruthy env.RAG_CORPUS <;>
    refine ⟨?_, ?_⟩ <;>
    simp [agent_tools, crisis_rag_retrieval, search_agent, AgentTool.name, h]

/-- C3: when `RAG_CORPUS` is absent, loading the agent module raises no error
(`load_agent_module` is a total function): the retrieval capability is `None`
and hence omitted from the tool list, the degraded-mode warning of
`agent.py` lines 47-50 is logged, and the root agent is still constructed,
with the search delegate as its only tool. -/
theorem C3_absent_corpus_degraded (env : Env) (h : env.RAG_CORPUS = none) :
    (load_agent_module env).crisis_rag_retrieval = none ∧
    ({ level := LogLevel.warning, msg := rag_corpus_warning } : LogRecord) ∈
      (load_agent_module env).logs ∧
    (load_agent_module env).root_agent =
      { model := MODEL_NAME env,
        instruction := CRISIS_RESPONSE_SYSTEM_INSTRUCTION,
        tools := [{ agent := AgentToolAgent.ofAgent (search_agent env) }],
        name := "crisis_response_agent",
        description := "Provides information and assistance during crisis situations." } := by
  have ht : pyTruthy env.RAG_CORPUS = false := by rw [h]; rfl
  refine ⟨?_, ?_, ?_⟩ <;>
    simp [load_agent_module, crisis_rag_retrieval, root_agent, agent_tools, ht]

/-- C3's witness: the theorem applied to the concrete environment with
neither variable set. -/
theorem C3_absent_corpus_degraded_witness :
    (load_agent_module env_no_rag).crisis_rag_retrieval = none ∧
    ({ level := LogLevel.warning, msg := rag_corpus_warning } : LogRecord) ∈
      (load_agent_module env_no_rag).logs ∧
    (load_agent_module env_no_rag).root_agent =
      { model := MODEL_NAME env_no_rag,
        instruction := CRISIS_RESPONSE_SYSTEM_INSTRUCTION,
        tools := [{ agent := AgentToolAgent.ofAgent (search_agent env_no_rag) }],
        name := "crisis_response_agent",
        description := "Provides information and assistance during crisis situations." } :=
  C3_absent_corpus_degraded env_no_rag rfl

/-- C10: in every environment configuration the root agent and the search
delegate agent carry the same model identifier, namely `MODEL_NAME` when set
and the default `gemini-2.0-flash` otherwise. -/
theorem C10_model_identifier_shared (env : Env) :
    (root_agent env).model = (search_agent env).model ∧
    (root_agent env).model = env.MODEL_NAME.getD "gemini-2.0-flash" :=
  ⟨rfl, rfl⟩

end CrisisResponse

namespace Corpus

/-- C6: corpus creation is idempotent. When some listed corpus carries the
configured display name, `create_or_get_corpus` returns a listed corpus with
that display name and its call trace is the listing alone — no
`create_corpus` call; when no listed corpus matches, it returns the created
corpus and the trace is the listing followed by exactly one `create_corpus`
call. -/
theorem C6_create_or_get_corpus_idempotent (dn descr : String)
    (existing : List RagCorpus) (created : RagCorpus) :
    ((∃ c ∈ existing, c.display_name = dn) →
       (create_or_get_corpus dn descr existing created).1 ∈ existing ∧
       (create_or_get_corpus dn descr existing created).1.display_name = dn ∧
       (create_or_get_corpus dn descr existing created).2 = [RagCall.list_corpora]) ∧
    ((∀ c ∈ existing, c.display_name ≠ dn) →
       create_or_get_corpus dn descr existing created =
         (created, [RagCall.list_corpora, RagCall.create_corpus dn descr])) := by
  constructor
  · rintro ⟨c, hc, hcd⟩
    cases hf : existing.find? (fun x => x.display_name == dn) with
    | none =>
        have hwit := List.find?_eq_none.mp hf c hc
        rw [hcd] at hwit
        simp at hwit
    | some c' =>
        have h1 : c'.display_name = dn := by simpa using List.find?_some hf
        have h2 := List.mem_of_find?_eq_some hf
        simp [create_or_get_corpus, hf, h1, h2]
  · intro hall
    have hf : existing.find? (fun x => x.display_name == dn) = none :=
      List.find?_eq_none.mpr (fun x hx => by simpa using hall x hx)
    simp [create_or_get_corpus, hf]

/-- C7: document upload is idempotent. When a file with the wanted display
name is already among the corpus's files, `upload_pdf_to_corpus` returns one
of those existing file handles and its call trace is the file listing alone —
no `upload_file` call; the upload call is issued (exactly once) only when no
file with the display name is present. -/
theorem C7_upload_pdf_to_corpus_idempotent (cn path dn descr : String)
    (files : List RagFile) (up : Option RagFile) :
    ((∃ g ∈ files, g.display_name = dn) →
       (∃ g ∈ files, g.display_name = dn ∧
          (upload_pdf_to_corpus cn path dn descr files up).1 = some g) ∧
       (upload_pdf_to_corpus cn path dn descr files up).2 = [RagCall.list_files cn]) ∧
    ((∀ g ∈ files, g.display_name ≠ dn) →
       upload_pdf_to_corpus cn path dn descr files up =
         (up, [RagCall.list_files cn, RagCall.upload_file cn path dn descr])) := by
  constructor
  · rintro ⟨g, hg, hgd⟩
    cases hf : files.find? (fun x => x.display_name == dn) with
    | none =>
        have hwit := List.find?_eq_none.mp hf g hg
        rw [hgd] at hwit
        simp at hwit
    | some g' =>
        have h1 : g'.display_name = dn := by simpa using List.find?_some hf
        have h2 := List.mem_of_find?_eq_some hf
        refine ⟨⟨g', h2, h1, ?_⟩, ?_⟩ <;> simp [upload_pdf_to_corpus, hf]
  · intro hall
    have hf : files.find? (fun x => x.display_name == dn) = none :=
      List.find?_eq_none.mpr (fun x hx => by simpa using hall x hx)
    simp [upload_pdf_to_corpus, hf]

/-- C8: a document whose single download attempt fails contributes exactly
one download attempt, the logged download error and the logged skip — no
upload call and no retry — and the documents before and after it are
processed exactly as they would be on their own: the loop continues and does
not terminate the run. -/
theorem C8_download_failure_skips_document (dl : String → Bool)
    (pre post : List DocInfo) (d : DocInfo)
    (hurl : pyTruthy d.url = true) (hfail : dl (d.url.getD "") = false) :
    main_document_loop dl (pre ++ d :: post) =
      main_document_loop dl pre ++
        [DocEvent.download_attempt (d.url.getD ""),
         DocEvent.download_error (d.url.getD ""),
         DocEvent.skip_download_failure d.filename] ++
      main_document_loop dl post := by
  simp [main_document_loop, process_document, download_pdf_from_url, hurl, hfail]

/-- C8's witness: under the all-downloads-fail oracle, the first example
document's failure is logged and skipped while the remaining document is
still processed. -/
theorem C8_download_failure_skips_document_witness :
    main_document_loop c8_dl ([] ++ c8_doc1 :: c8_rest) =
      main_document_loop c8_dl [] ++
        [DocEvent.download_attempt (c8_doc1.url.getD ""),
         DocEvent.download_error (c8_doc1.url.getD ""),
         DocEvent.skip_download_failure c8_doc1.filename] ++
      main_document_loop c8_dl c8_rest :=
  C8_download_failure_skips_document c8_dl [] c8_rest c8_doc1 rfl rfl

end Corpus

namespace Deploy

/-- A non-empty string is not `isEmpty`. -/
theorem isEmpty_eq_false_of_ne (s : String) (h : s ≠ "") : s.isEmpty = false := by
  rcases hb : s.isEmpty with _ | _
  · rfl
  · exact absurd ((String.isEmpty_iff s).mp hb) h

/-- `set_key` makes the key's value visible to lookup. -/
theorem env_lookup_set_key_self (f : EnvFile) (k v : String) :
    env_lookup (set_key f k v) k = some v := by
  induction f with
  | nil => simp [set_key, env_lookup]
  | cons kv rest ih =>
      by_cases h : kv.1 = k <;> simp [set_key, env_lookup, h, ih]

/-- `set_key` leaves other keys' lookups unchanged. -/
theorem env_lookup_set_key_ne (f : EnvFile) (k k' v : String) (h : k ≠ k') :
    env_lookup (set_key f k v) k' = env_lookup f k' := by
  induction f with
  | nil => simp [set_key, env_lookup, h]
  | cons kv rest ih =>
      by_cases hk : kv.1 = k
      · simp [set_key, env_lookup, hk, h]
      · simp [set_key, env_lookup, hk, ih]

/-- `unset_key` removes the key from lookup. -/
theorem env_lookup_unset_key_self (f : EnvFile) (k : String) :
    env_lookup (unset_key f k) k = none := by
  induction f with
  | nil => simp [unset_key, env_lookup]
  | cons kv rest ih =>
      by_cases h : kv.1 = k <;> simp [unset_key, env_lookup, h, ih]

/-- `unset_key` leaves other keys' lookups unchanged. -/
theorem env_lookup_unset_key_ne (f : EnvFile) (k k' : String) (h : k ≠ k') :
    env_lookup (unset_key f k) k' = env_lookup f k' := by
  induction f with
  | nil => simp [unset_key, env_lookup]
  | cons kv rest ih =>
      by_cases hk : kv.1 = k
      · simp [unset_key, env_lookup, hk, h, ih]
      · simp [unset_key, env_lookup, hk, ih]

/-- A successful `_get_config_value` means the resolved value was truthy. -/
theorem _get_config_value_ok_truthy (fv ev : Option String) (msg v : String)
    (h : _get_config_value fv ev msg = Except.ok v) :
    pyTruthy (resolved fv ev) = true := by
  by_cases hp : pyTruthy (resolved fv ev)
  · exact hp
  · simp [_get_config_value, hp] at h

/-- C4 (amended): after a successful create, `AGENT_ENGINE_ID` and
`AGENT_DISPLAY_NAME` in the `.env` file hold the new resource name and the
display name, unconditionally.  After a successful update they do so ONLY
when the updated id equals the environment's `AGENT_ENGINE_ID` or that
variable is unset/empty — otherwise the file is untouched.  After a
successful delete both keys are cleared ONLY when the deleted id equals the
environment's `AGENT_ENGINE_ID` — otherwise the file is untouched. -/
theorem C4_env_file_persistence (cp : ControlPlane) (flags : Flags) (env : DeployEnv)
    (f : EnvFile) (id rn : String) :
    (cp.create_result = some rn →
       (create_agent cp flags f).exit_code = 0 ∧
       env_lookup (create_agent cp flags f).env_file "AGENT_ENGINE_ID" = some rn ∧
       env_lookup (create_agent cp flags f).env_file "AGENT_DISPLAY_NAME" =
         some flags.display_name) ∧
    (cp.update_result = some rn → id ≠ "" →
       (update_agent cp env flags f id).exit_code = 0 ∧
       ((env.AGENT_ENGINE_ID = some id ∨ pyTruthy env.AGENT_ENGINE_ID = false) →
          env_lookup (update_agent cp env flags f id).env_file "AGENT_ENGINE_ID" = some rn ∧
          env_lookup (update_agent cp env flags f id).env_file "AGENT_DISPLAY_NAME" =
            some flags.display_name) ∧
       (env.AGENT_ENGINE_ID ≠ some id → pyTruthy env.AGENT_ENGINE_ID = true →
          (update_agent cp env flags f id).env_file = f)) ∧
    (cp.get_ok = true → cp.delete_ok = true → id ≠ "" →
       (delete_agent cp env f id).exit_code = 0 ∧
       (env.AGENT_ENGINE_ID = some id →
          env_lookup (delete_agent cp env f id).env_file "AGENT_ENGINE_ID" = none ∧
          env_lookup (delete_agent cp env f id).env_file "AGENT_DISPLAY_NAME" = none) ∧
       (env.AGENT_ENGINE_ID ≠ some id → (delete_agent cp env f id).env_file = f)) := by
  refine ⟨?_, ?_, ?_⟩
  · intro h
    refine ⟨by simp [create_agent, h], ?_, ?_⟩
    · simp only [create_agent, h, _update_env_file]
      rw [env_lookup_set_key_ne _ _ _ _ (by decide)]
      exact env_lookup_set_key_self _ _ _
    · simp only [create_agent, h, _update_env_file]
      exact env_lookup_set_key_self _ _ _
  · intro hu hid
    have hie : id.isEmpty = false := isEmpty_eq_false_of_ne id hid
    refine ⟨by simp [update_agent, hie, hu], ?_, ?_⟩
    · intro hcond
      simp only [update_agent, hie, hu, Bool.false_eq_true, if_false]
      rw [if_pos hcond]
      constructor
      · simp only [_update_env_file]
        rw [env_lookup_set_key_ne _ _ _ _ (by decide)]
        exact env_lookup_set_key_self _ _ _
      · simp only [_update_env_file]
        exact env_lookup_set_key_self _ _ _
    · intro hne htr
      have hnc : ¬(env.AGENT_ENGINE_ID = some id ∨ pyTruthy env.AGENT_ENGINE_ID = false) := by
        simp [hne, htr]
      simp only [update_agent, hie, hu, Bool.false_eq_true, if_false]
      rw [if_neg hnc]
  · intro hg hdel hid
    have hie : id.isEmpty = false := isEmpty_eq_false_of_ne id hid
    refine ⟨by simp [delete_agent, hie, hg, hdel], ?_, ?_⟩
    · intro hmatch
      simp only [delete_agent, hie, hg, hdel, Bool.not_true, Bool.false_eq_true, if_false]
      rw [if_pos hmatch]
      constructor
      · simp only [_update_env_file]
        rw [env_lookup_unset_key_ne _ _ _ (by decide)]
        exact env_lookup_unset_key_self _ _
      · simp only [_update_env_file]
        exact env_lookup_unset_key_self _ _
    · intro hne
      simp only [delete_agent, hie, hg, hdel, Bool.not_true, Bool.false_eq_true, if_false]
      rw [if_neg hne]

/-- C4, the claim as frozen, is false: a run of `main` with `--delete` whose
`--agent_engine_id` flag names engine B while the environment's
`AGENT_ENGINE_ID` is engine A deletes B successfully (exit code 0, the
`get`/`delete` calls issued) yet leaves BOTH keys in the `.env` file — they
are not cleared. -/
theorem C4_counterexample_delete_keeps_keys :
    c4_flags.delete = true ∧
    (main c4_flags c4_env c4_cp c4_file).exit_code = 0 ∧
    (main c4_flags c4_env c4_cp c4_file).calls =
      [CpCall.get "projects/p/locations/l/reasoningEngines/B",
       CpCall.delete "projects/p/locations/l/reasoningEngines/B"] ∧
    env_lookup (main c4_flags c4_env c4_cp c4_file).env_file "AGENT_ENGINE_ID" =
      some "projects/p/locations/l/reasoningEngines/A" ∧
    env_lookup (main c4_flags c4_env c4_cp c4_file).env_file "AGENT_DISPLAY_NAME" =
      some "Crisis Response Agent" := by
  refine ⟨rfl, ?_, ?_, ?_, ?_⟩ <;> rfl

/-- C5: a `--delete` run in which neither the `--agent_engine_id` flag nor
the `AGENT_ENGINE_ID` environment variable yields an identifier exits with
code 1 and issues NO control-plane call, whatever the rest of the
configuration. -/
theorem C5_delete_requires_identifier (flags : Flags) (env : DeployEnv)
    (cp : ControlPlane) (f : EnvFile)
    (hl : flags.list = false) (hc : flags.create = false) (hd : flags.delete = true)
    (hflag : pyTruthy flags.agent_engine_id = false)
    (henv : pyTruthy env.AGENT_ENGINE_ID = false) :
    (main flags env cp f).exit_code = 1 ∧ (main flags env cp f).calls = [] := by
  cases hp : _get_config_value flags.project_id env.GOOGLE_CLOUD_PROJECT project_error with
  | error e => constructor <;> simp [main, hp]
  | ok v =>
    cases hq : _get_config_value flags.location env.GOOGLE_CLOUD_LOCATION location_error with
    | error e => constructor <;> simp [main, hp, hq]
    | ok w =>
      cases hr : _get_config_value flags.staging_bucket_name env.STAGING_BUCKET_NAME
          staging_error with
      | error e => constructor <;> simp [main, hp, hq, hr]
      | ok x => constructor <;> simp [main, hp, hq, hr, hl, hc, hd, hflag, henv]

/-- C5's witness: the concrete `--delete` run with no identifier anywhere
exits 1 without a control-plane call. -/
theorem C5_delete_requires_identifier_witness :
    (main c5_flags c5_env c4_cp []).exit_code = 1 ∧
    (main c5_flags c5_env c4_cp []).calls = [] :=
  C5_delete_requires_identifier c5_flags c5_env c4_cp [] rfl rfl rfl rfl rfl

end Deploy

/-- C9: missing target coordinates are fatal before any network call.  For
the corpus-preparation utility, a falsy `GOOGLE_CLOUD_PROJECT` or
`GOOGLE_CLOUD_LOCATION` makes module initialisation raise (`error`) — and no
RAG or Vertex call is reachable without the initialised module.  For the
deployment CLI, when project, location or staging bucket resolves (flag,
then environment) to nothing truthy, `main` exits with code 1 having issued
no control-plane call. -/
theorem C9_missing_configuration_is_fatal (cenv : Corpus.CorpusEnv)
    (flags : Deploy.Flags) (denv : Deploy.DeployEnv) (cp : Deploy.ControlPlane)
    (f : Deploy.EnvFile) :
    ((pyTruthy cenv.GOOGLE_CLOUD_PROJECT = false ∨
      pyTruthy cenv.GOOGLE_CLOUD_LOCATION = false) →
       ∃ msg, Corpus.corpus_module_init cenv = Except.error msg) ∧
    ((pyTruthy (Deploy.resolved flags.project_id denv.GOOGLE_CLOUD_PROJECT) = false ∨
      pyTruthy (Deploy.resolved flags.location denv.GOOGLE_CLOUD_LOCATION) = false ∨
      pyTruthy (Deploy.resolved flags.staging_bucket_name denv.STAGING_BUCKET_NAME) = false) →
       (Deploy.main flags denv cp f).exit_code = 1 ∧
       (Deploy.main flags denv cp f).calls = []) := by
  constructor
  · intro h
    by_cases hp : pyTruthy cenv.GOOGLE_CLOUD_PROJECT
    · have hloc : pyTruthy cenv.GOOGLE_CLOUD_LOCATION = false := by
        rcases h with h | h
        · rw [h] at hp; exact absurd hp (by simp)
        · exact h
      exact ⟨"GOOGLE_CLOUD_LOCATION environment variable not set. Please set it in your .env file.",
        by simp [Corpus.corpus_module_init, hp, hloc]⟩
    · exact ⟨"GOOGLE_CLOUD_PROJECT environment variable not set. Please set it in your .env file.",
        by simp [Corpus.corpus_module_init, hp]⟩
  · intro h
    cases hp : Deploy._get_config_value flags.project_id denv.GOOGLE_CLOUD_PROJECT
        Deploy.project_error with
    | error e => constructor <;> simp [Deploy.main, hp]
    | ok v =>
      have hpt := Deploy._get_config_value_ok_truthy _ _ _ _ hp
      cases hq : Deploy._get_config_value flags.location denv.GOOGLE_CLOUD_LOCATION
          Deploy.location_error with
      | error e => constructor <;> simp [Deploy.main, hp, hq]
      | ok w =>
        have hqt := Deploy._get_config_value_ok_truthy _ _ _ _ hq
        cases hr : Deploy._get_config_value flags.staging_bucket_name
            denv.STAGING_BUCKET_NAME Deploy.staging_error with
        | error e => constructor <;> simp [Deploy.main, hp, hq, hr]
        | ok x =>
          have hrt := Deploy._get_config_value_ok_truthy _ _ _ _ hr
          rcases h with h | h | h
          · rw [h] at hpt; exact absurd hpt (by simp)
          · rw [h] at hqt; exact absurd hqt (by simp)
          · rw [h] at hrt; exact absurd hrt (by simp)
